import Mathlib

/-!
Verification development for the remote execution engine in `mtr/ssh.py`
(class `SSHClientWrapper`).  The Python source is shallowly embedded:
pure helpers become Lean functions, the interactive event loop becomes a
function over an explicit schedule of `select` readiness results and
queues of read events, and the calls into the external transport library
(paramiko) are modelled as explicit outcome parameters, following the
collaborator interface of the design document (§6).
-/

namespace MTR

/-- Python truthiness for an `Optional[str]` argument: `None` and the empty
string are falsy, every other string is truthy (used by the `if workdir:`
and `if pre_cmd:` guards in `_build_command`, and by the `if self.key_filename:`
/ `elif self.password:` guards in `connect`). -/
def pyTruthy : Option String → Bool
  | none => false
  | some s => if s = "" then false else true

/-- Embedding of `SSHClientWrapper._build_command` (ssh.py lines 81-88):
collect `cd <workdir>` (when truthy), the pre-command (when truthy) and the
user command, and join them with `" && "`. -/
def build_command (command : String) (workdir : Option String) (pre_cmd : Option String) : String :=
  let parts : List String :=
    (if pyTruthy workdir then ["cd " ++ workdir.getD ""] else []) ++
    (if pyTruthy pre_cmd then [pre_cmd.getD ""] else []) ++
    [command]
  String.intercalate " && " parts

/-- The bound (in seconds) passed to `channel.settimeout` before
`recv_exit_status` in `_run_event_loop` (ssh.py line 222). -/
def EXIT_STATUS_TIMEOUT : Nat := 5

/-- The remote side either reports an exit status within the bounded wait
(`some code`) or the bounded `recv_exit_status` call raises `socket.timeout`
(`none` becomes `.error ()`), as in ssh.py lines 221-228. -/
def recv_exit_status_bounded (reported : Option Int) : Except Unit Int :=
  match reported with
  | some code => .ok code
  | none => .error ()

/-- Embedding of the exit-status drain at the end of `_run_event_loop`
(ssh.py lines 220-228): the `socket.timeout` raised by the bounded wait is
caught and converted to the sentinel `-1`; the function is total, so no
exception escapes. -/
def resolve_exit_status (reported : Option Int) : Int :=
  match recv_exit_status_bounded reported with
  | .ok code => code
  | .error _ => -1

/-- One result of `channel.recv(BUFFER_SIZE)` in the relay loop: either data
(the empty string models a zero-byte read, i.e. remote EOF), a `socket.error`
(EAGAIN/EWOULDBLOCK, swallowed at ssh.py lines 195-196), or some other
exception (logged and swallowed at lines 197-198). -/
inductive RecvEvent
  | data (bytes : String)
  | sockErr
  | recvErr
  deriving DecidableEq, Repr

/-- One result of `os.read(sys.stdin.fileno(), BUFFER_SIZE)`: data (the empty
string models local EOF) or an exception (caught at ssh.py lines 214-215). -/
inductive StdinEvent
  | data (bytes : String)
  | readErr
  deriving DecidableEq, Repr

/-- Which `break` terminated the relay loop. -/
inductive ExitReason
  | remoteEof
  | localEof
  deriving DecidableEq, Repr

/-- One return value of `select.select([channel, sys.stdin], [], [])`: whether
the channel and/or local stdin were reported readable in this iteration. -/
structure Readiness where
  chan : Bool
  stdin : Bool
  deriving DecidableEq, Repr

/-- Observable outcome of a terminated relay loop: the chunks written to local
stdout in order, the chunks sent to the channel in order, and which side's
zero-byte read ended the loop. -/
structure RelayResult where
  written : List String
  sent : List String
  reason : ExitReason
  deriving DecidableEq, Repr

/-- Result of the `if channel in r:` block of one loop iteration. -/
inductive ChanPhase
  | stop (res : RelayResult)
  | cont (chanQ : List RecvEvent) (written : List String)
  deriving DecidableEq, Repr

/-- Result of the `if sys.stdin in r:` block of one loop iteration. -/
inductive StdinPhase
  | stop (res : RelayResult)
  | cont (stdinQ : List StdinEvent) (sent : List String)
  deriving DecidableEq, Repr

/-- The `if channel in r:` block (ssh.py lines 179-198): when the channel is
readable, `recv` the next event (an exhausted queue keeps returning zero
bytes, i.e. EOF); a zero-byte read breaks out of the loop with reason
`remoteEof`; data is appended to the local-stdout log; socket errors and
other exceptions are swallowed and the iteration continues. -/
def chan_phase (ready : Bool) (chanQ : List RecvEvent) (written sent : List String) : ChanPhase :=
  if ready then
    match chanQ.headD (.data "") with
    | .data d =>
      if d.length = 0 then
        .stop { written := written.reverse, sent := sent.reverse, reason := .remoteEof }
      else
        .cont chanQ.tail (d :: written)
    | .sockErr => .cont chanQ.tail written
    | .recvErr => .cont chanQ.tail written
  else
    .cont chanQ written

/-- The `if sys.stdin in r:` block (ssh.py lines 200-215): when stdin is
readable, read the next event; a zero-byte read breaks out of the loop with
reason `localEof`; nonempty data is sent to the channel; exceptions are
logged and swallowed. -/
def stdin_phase (ready : Bool) (stdinQ : List StdinEvent) (written sent : List String) : StdinPhase :=
  if ready then
    match stdinQ.headD (.data "") with
    | .data d =>
      if d.length = 0 then
        .stop { written := written.reverse, sent := sent.reverse, reason := .localEof }
      else
        .cont stdinQ.tail (d :: sent)
    | .readErr => .cont stdinQ.tail sent
  else
    .cont stdinQ sent

/-- The `while True:` relay loop of `_run_event_loop` (ssh.py lines 172-216),
driven by an explicit schedule of `select` results.  `none` means the
schedule ran out before either side delivered a zero-byte read: the loop is
still running (there is no other exit condition in the source). -/
def relay_loop : List Readiness → List RecvEvent → List StdinEvent →
    List String → List String → Option RelayResult
  | [], _, _, _, _ => none
  | r :: sched, chanQ, stdinQ, written, sent =>
    match chan_phase r.chan chanQ written sent with
    | .stop res => some res
    | .cont chanQ' written' =>
      match stdin_phase r.stdin stdinQ written' sent with
      | .stop res => some res
      | .cont stdinQ' sent' => relay_loop sched chanQ' stdinQ' written' sent'

/-- Embedding of `_run_event_loop` (ssh.py lines 163-228): run the relay loop;
if it terminates, drain the exit status with the bounded resolver. -/
def run_event_loop (sched : List Readiness) (chanQ : List RecvEvent)
    (stdinQ : List StdinEvent) (reported : Option Int) : Option (RelayResult × Int) :=
  match relay_loop sched chanQ stdinQ [] [] with
  | none => none
  | some res => some (res, resolve_exit_status reported)

/-- The errors observably raised (or mapped) by `SSHClientWrapper`.  Each
constructor corresponds to one distinct raise site in ssh.py. -/
inductive PyError
  | notConnected
  | noTTYSupport
  | notMainThread
  | transportNotActive
  | armFailure (which : String)
  | execFailed
  | loopException (msg : String)
  | connectFailed
  deriving DecidableEq, Repr

/-- The external `paramiko.SSHClient` handle held in `self.client`.  Its
`close` (the transport provider of §6) is modelled as total and idempotent:
it only marks the transport released. -/
structure PySSHClient where
  closed : Bool
  deriving DecidableEq, Repr

/-- The state of one `SSHClientWrapper` instance: constructor arguments plus
the `self.client` field, which is `none` until `connect` assigns it. -/
structure Session where
  host : String
  user : String
  port : Nat
  key_filename : Option String
  password : Option String
  client : Option PySSHClient
  deriving DecidableEq, Repr

/-- The authentication method carried by the keyword arguments that `connect`
passes to the transport provider: exactly one of key material, password, or
no credentials (default negotiation). -/
inductive AuthMethod
  | keyFile (path : String)
  | pwd (secret : String)
  | defaultNegotiation
  deriving DecidableEq, Repr

/-- The keyword arguments built by `connect` (ssh.py lines 57-72): fixed
hostname/username/port/timeout plus the single authentication entry chosen
by the `if self.key_filename: / elif self.password: / else:` chain. -/
structure ConnectKwargs where
  hostname : String
  username : String
  port : Nat
  timeout : Nat
  auth : AuthMethod
  deriving DecidableEq, Repr

/-- The authentication precedence of `connect`: truthy key material first,
else truthy password, else no credentials. -/
def chooseAuth (s : Session) : AuthMethod :=
  if pyTruthy s.key_filename then .keyFile (s.key_filename.getD "")
  else if pyTruthy s.password then .pwd (s.password.getD "")
  else .defaultNegotiation

/-- The full keyword-argument record assembled by `connect` before calling
the transport provider; the timeout is the literal `10` of ssh.py line 61. -/
def connect_kwargs (s : Session) : ConnectKwargs :=
  { hostname := s.host
    username := s.user
    port := s.port
    timeout := 10
    auth := chooseAuth s }

/-- Failure modes of the transport provider's `connect` (§6 collaborator:
`connect(...) -> transport | ConnectionError`), surfaced to the wrapper as
`paramiko.SSHException`: the handshake did not complete within the bounded
timeout, or the remote rejected the credentials. -/
inductive TransportFailure
  | handshakeTimeout
  | authRejected
  deriving DecidableEq, Repr

/-- Embedding of `SSHClientWrapper.connect` (ssh.py lines 52-79): assign a
fresh client to `self.client`, build the keyword arguments, call the
transport provider, and map its `SSHException` to the wrapper's error
(`SSHError`, modelled as `.connectFailed`).  Note the client field is
assigned before the handshake is attempted, exactly as in the source. -/
def connect (s : Session) (transport : ConnectKwargs → Except TransportFailure Unit) :
    Session × Except PyError Unit :=
  let s' := { s with client := some { closed := false } }
  match transport (connect_kwargs s) with
  | .ok _ => (s', .ok ())
  | .error _ => (s', .error .connectFailed)

/-- Embedding of `SSHClientWrapper.close` (ssh.py lines 315-319):
`if self.client: self.client.close()`.  The client field is NOT reset to
`None`; closing only marks the collaborator transport released. -/
def closeSession (s : Session) : Session × Except PyError Unit :=
  match s.client with
  | none => (s, .ok ())
  | some c => ({ s with client := some { c with closed := true } }, .ok ())

/-- One observable event of the generator returned by `exec_command_stream`:
the composed command being dispatched, one output line yielded, or the exit
status delivered as the generator's return value. -/
inductive StreamEvent
  | execCmd (full : String)
  | line (text : String)
  | exitStatus (code : Int)
  deriving DecidableEq, Repr

/-- Remote behaviour supplied to `exec_command_stream`: the lines the channel
produces before closing, the exit status it then reports, and whether the
dispatch raises `paramiko.SSHException`. -/
structure ExecEnv where
  lines : List String
  exit_code : Int
  execRaises : Bool
  deriving DecidableEq, Repr

/-- Embedding of `SSHClientWrapper.exec_command_stream` (ssh.py lines
90-132) as its observable event trace: guard on `self.client`, compose the
full command, dispatch it (an `SSHException` is re-raised as `SSHError`),
yield every line as it arrives, and finally return
`stdout.channel.recv_exit_status()` as the terminal value. -/
def exec_command_stream (s : Session) (command : String) (workdir pre_cmd : Option String)
    (env : ExecEnv) : Except PyError (List StreamEvent) :=
  if s.client.isNone then .error .notConnected
  else if env.execRaises then .error .execFailed
  else
    .ok (.execCmd (build_command command workdir pre_cmd) ::
          env.lines.map .line ++ [.exitStatus env.exit_code])

/-- The output lines of a stream trace, in order. -/
def lineEvents : List StreamEvent → List String
  | [] => []
  | .line t :: rest => t :: lineEvents rest
  | .execCmd _ :: rest => lineEvents rest
  | .exitStatus _ :: rest => lineEvents rest

/-- The exit statuses delivered by a stream trace, in order. -/
def exitEvents : List StreamEvent → List Int
  | [] => []
  | .exitStatus c :: rest => c :: exitEvents rest
  | .execCmd _ :: rest => exitEvents rest
  | .line _ :: rest => exitEvents rest

/-- Which of the three restorations of `_cleanup_resources` a trace entry
refers to. -/
inductive CleanupStep
  | restoreTermAttrs
  | restoreSignalHandler
  | closeChannel
  deriving DecidableEq, Repr

/-- Failure injection for `_cleanup_resources`: whether each restoration's
underlying call raises. -/
structure CleanupEnv where
  tcsetattrFails : Bool
  signalRestoreFails : Bool
  closeFails : Bool
  deriving DecidableEq, Repr

/-- Observable trace of one `_cleanup_resources` call: the restorations
attempted, in order, and those whose exception was caught and logged. -/
structure CleanupTrace where
  steps : List CleanupStep
  caught : List CleanupStep
  deriving DecidableEq, Repr

/-- `termios.tcsetattr(sys.stdin, termios.TCSADRAIN, old_tty_attrs)`, which
may raise (ssh.py line 236). -/
def tcsetattr_restore (env : CleanupEnv) : Except String Unit :=
  if env.tcsetattrFails then .error "Failed to restore terminal settings" else .ok ()

/-- `signal.signal(signal.SIGWINCH, old_handler)`, which may raise
(ssh.py line 243). -/
def signal_restore (env : CleanupEnv) : Except String Unit :=
  if env.signalRestoreFails then .error "Failed to restore signal handler" else .ok ()

/-- `channel.close()`, which may raise (ssh.py line 251). -/
def channel_close (env : CleanupEnv) : Except String Unit :=
  if env.closeFails then .error "Error closing channel" else .ok ()

/-- One `try: ... except Exception: log` block of `_cleanup_resources`: the
step is always attempted; a raised exception is recorded as caught (logged)
and never re-raised, so the wrapper is total. -/
def attempt (step : CleanupStep) (act : Except String Unit) (t : CleanupTrace) : CleanupTrace :=
  match act with
  | .ok _ => { steps := t.steps ++ [step], caught := t.caught }
  | .error _ => { steps := t.steps ++ [step], caught := t.caught ++ [step] }

/-- Embedding of `SSHClientWrapper._cleanup_resources` (ssh.py lines
230-256): the three restorations run in order, each inside its own
`try/except Exception` block; the `if channel:` guard skips the close when
the channel reference is `None`.  Totality of the result type reflects that
every statement of the source function sits inside a catch-all handler, so
no exception propagates out of teardown. -/
def cleanup_resources (channelPresent : Bool) (env : CleanupEnv) : CleanupTrace :=
  let t0 : CleanupTrace := { steps := [], caught := [] }
  let t1 := attempt .restoreTermAttrs (tcsetattr_restore env) t0
  let t2 := attempt .restoreSignalHandler (signal_restore env) t1
  if channelPresent then attempt .closeChannel (channel_close env) t2 else t2

/-- Environment for one `run_interactive_shell` call: platform and thread
checks, whether each setup/arm step succeeds, the event-loop outcome (a
returned exit code, covering both the remote-EOF and local-EOF loop exits,
or an exception escaping the loop), and the failure injection for
teardown. -/
structure ShellEnv where
  hasTTY : Bool
  onMainThread : Bool
  setupOk : Bool
  tcgetattrOk : Bool
  signalInstallOk : Bool
  setrawOk : Bool
  loopOutcome : Except String Int
  cleanup : CleanupEnv
  deriving Repr

/-- Observable trace of one `run_interactive_shell` call: the returned exit
code or raised error, whether `tty.setraw` completed (raw mode entered), and
the teardown invocations that ran (one trace per `_cleanup_resources`
call). -/
structure ShellTrace where
  result : Except PyError Int
  rawModeEntered : Bool
  cleanups : List CleanupTrace
  deriving Repr

/-- Embedding of `SSHClientWrapper.run_interactive_shell` (ssh.py lines
258-313): guards on connection, TTY support and main thread; channel setup;
snapshot capture (`tcgetattr`), resize-handler installation
(`signal.signal`), and `tty.setraw`; then `try: _run_event_loop(channel)
finally: _cleanup_resources(...)`.  An exception before `setraw` completes
propagates without any teardown (the `try` block has not been entered);
once raw mode is entered, the `finally` clause runs teardown exactly once
on both the return path and the exception path. -/
def run_interactive_shell (s : Session) (env : ShellEnv) : ShellTrace :=
  if s.client.isNone then
    { result := .error .notConnected, rawModeEntered := false, cleanups := [] }
  else if env.hasTTY = false then
    { result := .error .noTTYSupport, rawModeEntered := false, cleanups := [] }
  else if env.onMainThread = false then
    { result := .error .notMainThread, rawModeEntered := false, cleanups := [] }
  else if env.setupOk = false then
    { result := .error .transportNotActive, rawModeEntered := false, cleanups := [] }
  else if env.tcgetattrOk = false then
    { result := .error (.armFailure "tcgetattr"), rawModeEntered := false, cleanups := [] }
  else if env.signalInstallOk = false then
    { result := .error (.armFailure "signal"), rawModeEntered := false, cleanups := [] }
  else if env.setrawOk = false then
    { result := .error (.armFailure "setraw"), rawModeEntered := false, cleanups := [] }
  else
    let t := cleanup_resources true env.cleanup
    match env.loopOutcome with
    | .ok code => { result := .ok code, rawModeEntered := true, cleanups := [t] }
    | .error msg => { result := .error (.loopException msg), rawModeEntered := true, cleanups := [t] }

/-- Environment for one invocation of the SIGWINCH `_resize_handler`:
whether the captured channel is still active, the result of
`os.get_terminal_size()` (which may raise `OSError`), and whether
`channel.resize_pty` succeeds. -/
structure ResizeEnv where
  channelActive : Bool
  termSize : Except Unit (Nat × Nat)
  resizeOk : Bool
  deriving Repr

/-- Observable outcome of one `_resize_handler` invocation. -/
inductive ResizeOutcome
  | resized (width height : Nat)
  | skipped
  | failedLogged
  deriving DecidableEq, Repr

/-- The body of `_resize_handler` (ssh.py lines 285-292) before exception
handling: guard on channel activity, query the local terminal size, forward
it via `resize_pty`; either call may raise. -/
def resize_handler_body (env : ResizeEnv) : Except String ResizeOutcome :=
  if env.channelActive then
    match env.termSize with
    | .ok (c, r) => if env.resizeOk then .ok (.resized c r) else .error "resize_pty failed"
    | .error _ => .error "Failed to resize terminal"
  else .ok .skipped

/-- Embedding of `_resize_handler` (ssh.py lines 283-296): the whole body is
wrapped in `except OSError` / `except Exception` handlers that log and
return, so every failure becomes a logged outcome and no exception
propagates out of the handler. -/
def resize_handler (env : ResizeEnv) : ResizeOutcome :=
  match resize_handler_body env with
  | .ok o => o
  | .error _ => .failedLogged

/-- A channel read event that is not a zero-byte read: nonempty data, or a
swallowed error. -/
def recvNonEof : RecvEvent → Bool
  | .data d => if d = "" then false else true
  | .sockErr => true
  | .recvErr => true

/-- A stdin read event that is not a zero-byte read: nonempty data, or a
swallowed error. -/
def stdinNonEof : StdinEvent → Bool
  | .data d => if d = "" then false else true
  | .readErr => true

/-- A connected session fixture (as left by a successful `connect`). -/
def connectedSession : Session :=
  { host := "h"
    user := "u"
    port := 22
    key_filename := none
    password := none
    client := some { closed := false } }

/-- A session on which `connect` was never called. -/
def unconnectedSession : Session :=
  { host := "h"
    user := "u"
    port := 22
    key_filename := none
    password := none
    client := none }

/-- A session configured with both key material and a password, to exercise
the authentication precedence. -/
def keyAndPasswordSession : Session :=
  { host := "h"
    user := "u"
    port := 22
    key_filename := some "~/.ssh/id_rsa"
    password := some "pw"
    client := none }

/-- An environment in which every step of an interactive run succeeds and
the event loop returns exit code 0. -/
def happyShellEnv : ShellEnv :=
  { hasTTY := true
    onMainThread := true
    setupOk := true
    tcgetattrOk := true
    signalInstallOk := true
    setrawOk := true
    loopOutcome := .ok 0
    cleanup := { tcsetattrFails := false, signalRestoreFails := false, closeFails := false } }

/-! ### Helper lemmas -/

/-- A string of length zero is the empty string. -/
theorem string_eq_empty_of_length_eq_zero (s : String) (h : s.length = 0) : s = "" := by
  cases s with
  | mk data =>
    have hd : data = [] := List.eq_nil_of_length_eq_zero h
    subst hd
    rfl

/-- A `stop` result of `chan_phase` is always the remote-EOF result built
from the current accumulators. -/
theorem chan_phase_stop_eq (ready : Bool) (chanQ : List RecvEvent)
    (written sent : List String) (res : RelayResult)
    (h : chan_phase ready chanQ written sent = .stop res) :
    res = { written := written.reverse, sent := sent.reverse, reason := .remoteEof } := by
  cases ready with
  | false => simp [chan_phase] at h
  | true =>
    cases chanQ with
    | nil =>
      simp [chan_phase] at h
      exact h.symm
    | cons e rest =>
      cases e with
      | data d =>
        by_cases h0 : d.length = 0
        · simp [chan_phase, h0] at h
          exact h.symm
        · simp [chan_phase, h0] at h
      | sockErr => simp [chan_phase] at h
      | recvErr => simp [chan_phase] at h

/-- A `stop` result of `stdin_phase` is always the local-EOF result built
from the current accumulators. -/
theorem stdin_phase_stop_eq (ready : Bool) (stdinQ : List StdinEvent)
    (written sent : List String) (res : RelayResult)
    (h : stdin_phase ready stdinQ written sent = .stop res) :
    res = { written := written.reverse, sent := sent.reverse, reason := .localEof } := by
  cases ready with
  | false => simp [stdin_phase] at h
  | true =>
    cases stdinQ with
    | nil =>
      simp [stdin_phase] at h
      exact h.symm
    | cons e rest =>
      cases e with
      | data d =>
        by_cases h0 : d.length = 0
        · simp [stdin_phase, h0] at h
          exact h.symm
        · simp [stdin_phase, h0] at h
      | readErr => simp [stdin_phase] at h

/-- A `cont` result of `stdin_phase` leaves the sent accumulator unchanged or
prepends one nonempty chunk. -/
theorem stdin_phase_cont_sent (ready : Bool) (stdinQ : List StdinEvent)
    (written sent : List String) (q' : List StdinEvent) (s' : List String)
    (h : stdin_phase ready stdinQ written sent = .cont q' s') :
    s' = sent ∨ ∃ d, d ≠ "" ∧ s' = d :: sent := by
  cases ready with
  | false =>
    simp [stdin_phase] at h
    left
    exact h.2.symm
  | true =>
    cases stdinQ with
    | nil => simp [stdin_phase] at h
    | cons e rest =>
      cases e with
      | data d =>
        by_cases h0 : d.length = 0
        · simp [stdin_phase, h0] at h
        · simp [stdin_phase, h0] at h
          right
          refine ⟨d, ?_, h.2.symm⟩
          intro hde
          subst hde
          simp at h0
      | readErr =>
        simp [stdin_phase] at h
        left
        exact h.2.symm

/-- A `cont` result of `chan_phase` leaves the sent accumulator untouched
(no send happens in the channel block), and when every queued event is a
non-EOF event and the queue is nonempty, `chan_phase` always continues,
consuming at most one event. -/
theorem chan_phase_cont_of_nonEof (ready : Bool) (chanQ : List RecvEvent)
    (written sent : List String)
    (hne : ∀ e ∈ chanQ, recvNonEof e = true) (hnil : chanQ ≠ []) :
    ∃ q' w', chan_phase ready chanQ written sent = .cont q' w' ∧
      chanQ.length ≤ q'.length + 1 ∧ (∀ e ∈ q', e ∈ chanQ) := by
  cases ready with
  | false =>
    exact ⟨chanQ, written, by simp [chan_phase], Nat.le_succ _, fun e he => he⟩
  | true =>
    obtain ⟨e, rest, rfl⟩ := List.exists_cons_of_ne_nil hnil
    cases e with
    | data d =>
      have hd : d ≠ "" := by
        have := hne (.data d) (List.mem_cons_self _ _)
        simp only [recvNonEof] at this
        intro hde
        subst hde
        simp at this
      have hlen : ¬ d.length = 0 := fun hl => hd (string_eq_empty_of_length_eq_zero d hl)
      refine ⟨rest, d :: written, ?_, by simp, fun e he => List.mem_cons_of_mem _ he⟩
      simp [chan_phase, hlen]
    | sockErr =>
      exact ⟨rest, written, by simp [chan_phase], by simp,
        fun e he => List.mem_cons_of_mem _ he⟩
    | recvErr =>
      exact ⟨rest, written, by simp [chan_phase], by simp,
        fun e he => List.mem_cons_of_mem _ he⟩

/-- Analogue of `chan_phase_cont_of_nonEof` for the stdin block. -/
theorem stdin_phase_cont_of_nonEof (ready : Bool) (stdinQ : List StdinEvent)
    (written sent : List String)
    (hne : ∀ e ∈ stdinQ, stdinNonEof e = true) (hnil : stdinQ ≠ []) :
    ∃ q' s', stdin_phase ready stdinQ written sent = .cont q' s' ∧
      stdinQ.length ≤ q'.length + 1 ∧ (∀ e ∈ q', e ∈ stdinQ) := by
  cases ready with
  | false =>
    exact ⟨stdinQ, sent, by simp [stdin_phase], Nat.le_succ _, fun e he => he⟩
  | true =>
    obtain ⟨e, rest, rfl⟩ := List.exists_cons_of_ne_nil hnil
    cases e with
    | data d =>
      have hd : d ≠ "" := by
        have := hne (.data d) (List.mem_cons_self _ _)
        simp only [stdinNonEof] at this
        intro hde
        subst hde
        simp at this
      have hlen : ¬ d.length = 0 := fun hl => hd (string_eq_empty_of_length_eq_zero d hl)
      refine ⟨rest, d :: sent, ?_, by simp, fun e he => List.mem_cons_of_mem _ he⟩
      simp [stdin_phase, hlen]
    | readErr =>
      exact ⟨rest, sent, by simp [stdin_phase], by simp,
        fun e he => List.mem_cons_of_mem _ he⟩

/-- While neither queue delivers a zero-byte read, the relay loop keeps
running: no schedule of select results can make it exit. -/
theorem relay_loop_no_exit (sched : List Readiness) :
    ∀ (chanQ : List RecvEvent) (stdinQ : List StdinEvent) (written sent : List String),
    (∀ e ∈ chanQ, recvNonEof e = true) → (∀ e ∈ stdinQ, stdinNonEof e = true) →
    sched.length ≤ chanQ.length → sched.length ≤ stdinQ.length →
    relay_loop sched chanQ stdinQ written sent = none := by
  induction sched with
  | nil =>
    intro chanQ stdinQ written sent _ _ _ _
    rfl
  | cons r sched ih =>
    intro chanQ stdinQ written sent hc hs hlc hls
    have hcnil : chanQ ≠ [] := by
      intro hnil
      subst hnil
      simp at hlc
    have hsnil : stdinQ ≠ [] := by
      intro hnil
      subst hnil
      simp at hls
    obtain ⟨q', w', hcp, hqlen, hqmem⟩ :=
      chan_phase_cont_of_nonEof r.chan chanQ written sent hc hcnil
    obtain ⟨p', s', hsp, hplen, hpmem⟩ :=
      stdin_phase_cont_of_nonEof r.stdin stdinQ w' sent hs hsnil
    simp only [relay_loop, hcp, hsp]
    apply ih
    · exact fun e he => hc e (hqmem e he)
    · exact fun e he => hs e (hpmem e he)
    · simp only [List.length_cons] at hlc
      omega
    · simp only [List.length_cons] at hls
      omega

/-- The chunks a terminated relay loop has sent to the channel are the final
accumulator reversed, and every chunk beyond the initial accumulator is
nonempty. -/
theorem relay_loop_sent_nonempty (sched : List Readiness) :
    ∀ (chanQ : List RecvEvent) (stdinQ : List StdinEvent) (written sent : List String)
      (res : RelayResult),
    relay_loop sched chanQ stdinQ written sent = some res →
    (∀ x ∈ sent, x ≠ "") → ∀ x ∈ res.sent, x ≠ "" := by
  induction sched with
  | nil =>
    intro chanQ stdinQ written sent res h _
    cases h
  | cons r sched ih =>
    intro chanQ stdinQ written sent res h hsent
    cases hcp : chan_phase r.chan chanQ written sent with
    | stop res' =>
      simp only [relay_loop, hcp, Option.some.injEq] at h
      subst h
      have := chan_phase_stop_eq r.chan chanQ written sent res' hcp
      subst this
      intro x hx
      exact hsent x (List.mem_reverse.mp hx)
    | cont q' w' =>
      cases hsp : stdin_phase r.stdin stdinQ w' sent with
      | stop res' =>
        simp only [relay_loop, hcp, hsp, Option.some.injEq] at h
        subst h
        have := stdin_phase_stop_eq r.stdin stdinQ w' sent res' hsp
        subst this
        intro x hx
        exact hsent x (List.mem_reverse.mp hx)
      | cont p' s' =>
        simp only [relay_loop, hcp, hsp] at h
        rcases stdin_phase_cont_sent r.stdin stdinQ w' sent p' s' hsp with hkeep | ⟨d, hd, hcons⟩
        · refine ih q' p' w' s' res h ?_
          rw [hkeep]
          exact hsent
        · subst hcons
          refine ih q' p' w' (d :: sent) res h ?_
          intro x hx
          rcases List.mem_cons.mp hx with hxd | hxs
          · subst hxd
            exact hd
          · exact hsent x hxs

/-- The lines of a trace that prefixes mapped line events onto a tail. -/
theorem lineEvents_map_line_append (L : List String) (rest : List StreamEvent) :
    lineEvents (L.map .line ++ rest) = L ++ lineEvents rest := by
  induction L with
  | nil => rfl
  | cons a t ih => simp [lineEvents, ih]

/-- Mapped line events contribute no exit statuses. -/
theorem exitEvents_map_line_append (L : List String) (rest : List StreamEvent) :
    exitEvents (L.map .line ++ rest) = exitEvents rest := by
  induction L with
  | nil => rfl
  | cons a t ih => simp [exitEvents, ih]

/-! ### Claim theorems -/

/-- C3: the command composer is pure and deterministic with fixed segment
order `cd workdir && preCommand && command` and no dangling separator: for
every non-empty command, composing with no optional segments returns the
command unchanged; a workdir alone prepends `cd /a && `; a pre-command alone
prepends `p && `; and both prepend `cd /a && p && `. -/
theorem build_command_spec (command : String) (_hne : command ≠ "") :
    build_command command none none = command ∧
    build_command command (some "/a") none = "cd /a && " ++ command ∧
    build_command command none (some "p") = "p && " ++ command ∧
    build_command command (some "/a") (some "p") = "cd /a && p && " ++ command :=
  ⟨rfl, rfl, rfl, rfl⟩

/-- Witness for C3 at the concrete command `"ls"`. -/
theorem build_command_spec_witness :
    ("ls" : String) ≠ "" ∧ build_command "ls" (some "/a") (some "p") = "cd /a && p && ls" := by
  have h := build_command_spec "ls" (by decide)
  exact ⟨by decide, h.2.2.2⟩

/-- C6: the exit-status resolver waits under the 5-second bound configured
on the channel; when the remote side fails to report within that bound (the
bounded wait raises `socket.timeout`), the resolver returns the negative
sentinel `-1` instead of propagating the exception, both in isolation and
as the final step of the event loop. -/
theorem resolve_exit_status_spec :
    EXIT_STATUS_TIMEOUT = 5 ∧
    (∀ reported : Option Int, recv_exit_status_bounded reported = .error () →
      resolve_exit_status reported = -1) ∧
    ((-1 : Int) < 0) ∧
    (∀ (sched : List Readiness) (chanQ : List RecvEvent) (stdinQ : List StdinEvent)
       (p : RelayResult × Int), run_event_loop sched chanQ stdinQ none = some p →
       p.2 = -1) := by
  refine ⟨rfl, ?_, by decide, ?_⟩
  · intro reported h
    simp only [resolve_exit_status, h]
  · intro sched chanQ stdinQ p h
    unfold run_event_loop at h
    cases hrl : relay_loop sched chanQ stdinQ [] [] with
    | none =>
      rw [hrl] at h
      cases h
    | some res =>
      rw [hrl] at h
      cases h
      rfl

/-- Witness for C6: a loop that ends at once by remote EOF, with the exit
status never reported, yields the sentinel `-1`. -/
theorem resolve_exit_status_spec_witness :
    resolve_exit_status none = -1 ∧
    run_event_loop [{ chan := true, stdin := true }] [] [] none =
      some ({ written := [], sent := [], reason := .remoteEof }, -1) := by
  refine ⟨resolve_exit_status_spec.2.1 none rfl, ?_⟩
  rfl

/-- C2: the relay loop exits only when a read of the channel or of local
stdin returns zero bytes (while both sides keep delivering data or swallowed
errors, no select schedule makes it exit); it never forwards a zero-length
stdin read to the channel; and on the claim's concrete input (channel yields
`"hello"` then zero bytes, stdin yields zero bytes immediately, select
reporting both sides readable) it terminates, writes `"hello"` exactly once,
and never sends on the channel. -/
theorem relay_loop_spec :
    (∀ (sched : List Readiness) (chanQ : List RecvEvent) (stdinQ : List StdinEvent),
      (∀ e ∈ chanQ, recvNonEof e = true) → (∀ e ∈ stdinQ, stdinNonEof e = true) →
      sched.length ≤ chanQ.length → sched.length ≤ stdinQ.length →
      relay_loop sched chanQ stdinQ [] [] = none) ∧
    (∀ (sched : List Readiness) (chanQ : List RecvEvent) (stdinQ : List StdinEvent)
       (res : RelayResult), relay_loop sched chanQ stdinQ [] [] = some res →
       "" ∉ res.sent) ∧
    relay_loop [{ chan := true, stdin := true }, { chan := true, stdin := true }]
        [.data "hello", .data ""] [.data ""] [] [] =
      some { written := ["hello"], sent := [], reason := .localEof } := by
  refine ⟨?_, ?_, rfl⟩
  · intro sched chanQ stdinQ hc hs h1 h2
    exact relay_loop_no_exit sched chanQ stdinQ [] [] hc hs h1 h2
  · intro sched chanQ stdinQ res h hmem
    exact relay_loop_sent_nonempty sched chanQ stdinQ [] [] res h
      (fun x hx => absurd hx (List.not_mem_nil x)) "" hmem rfl

/-- Witness for C2: a schedule over non-EOF events leaves the loop running,
and the loop of the concrete scenario sent nothing empty. -/
theorem relay_loop_spec_witness :
    relay_loop [{ chan := true, stdin := false }] [.data "x"] [.data "y"] [] [] = none ∧
    ("" : String) ∉
      ({ written := ["hello"], sent := [], reason := .localEof } : RelayResult).sent := by
  constructor
  · exact relay_loop_spec.1 [{ chan := true, stdin := false }] [.data "x"] [.data "y"]
      (by decide) (by decide) (by decide) (by decide)
  · exact relay_loop_spec.2.1 [{ chan := true, stdin := true }, { chan := true, stdin := true }]
      [.data "hello", .data ""] [.data ""] _ relay_loop_spec.2.2

/-- C5: on a connected session, the batch streaming executor returns a trace
that yields exactly the channel's lines in arrival order, resolves the exit
status exactly once, and delivers it as the trace's terminal value, strictly
after all lines. -/
theorem exec_command_stream_spec :
    ∀ (s : Session) (command : String) (workdir pre_cmd : Option String)
      (L : List String) (code : Int),
      s.client.isSome = true →
      ∃ tr, exec_command_stream s command workdir pre_cmd
          { lines := L, exit_code := code, execRaises := false } = .ok tr ∧
        lineEvents tr = L ∧
        exitEvents tr = [code] ∧
        tr.getLast? = some (.exitStatus code) := by
  intro s command workdir pre_cmd L code hcl
  obtain ⟨c, hc⟩ := Option.isSome_iff_exists.mp hcl
  refine ⟨.execCmd (build_command command workdir pre_cmd) ::
      L.map .line ++ [.exitStatus code], ?_, ?_, ?_, ?_⟩
  · simp [exec_command_stream, hc]
  · rw [List.cons_append]
    simp only [lineEvents]
    rw [lineEvents_map_line_append]
    simp [lineEvents]
  · rw [List.cons_append]
    simp only [exitEvents]
    rw [exitEvents_map_line_append]
    simp [exitEvents]
  · exact List.getLast?_concat _

/-- Witness for C5 at the spec's concrete scenario: lines `a\n`, `b\n` and
exit status 0. -/
theorem exec_command_stream_spec_witness :
    ∃ tr, exec_command_stream connectedSession "echo hi" none none
        { lines := ["a\n", "b\n"], exit_code := 0, execRaises := false } = .ok tr ∧
      lineEvents tr = ["a\n", "b\n"] ∧
      exitEvents tr = [0] ∧
      tr.getLast? = some (.exitStatus 0) :=
  exec_command_stream_spec connectedSession "echo hi" none none ["a\n", "b\n"] 0 rfl

/-- C7: `close` never raises: it is a no-op on a session that never had a
successful connect, and closing twice in a row raises nothing and leaves the
session state where the first close put it. -/
theorem closeSession_spec :
    ∀ s : Session,
      (closeSession s).2 = .ok () ∧
      (closeSession (closeSession s).1).2 = .ok () ∧
      (closeSession (closeSession s).1).1 = (closeSession s).1 ∧
      (s.client = none → (closeSession s).1 = s) := by
  intro s
  cases hc : s.client with
  | none =>
    refine ⟨?_, ?_, ?_, ?_⟩ <;> simp [closeSession, hc]
  | some c =>
    refine ⟨?_, ?_, ?_, ?_⟩ <;> simp [closeSession, hc]

/-- Witness for C7: closing a never-connected session leaves it unchanged. -/
theorem closeSession_spec_witness :
    (closeSession unconnectedSession).1 = unconnectedSession :=
  (closeSession_spec _).2.2.2 rfl

/-- C8: `connect` selects exactly one authentication method by the
precedence key material first, else password, else no credentials; the
handshake timeout passed to the transport provider is the bounded 10
seconds; a transport failure (handshake timeout or rejected authentication,
per the §6 collaborator interface) is surfaced as the wrapper's connection
error; and on success the session holds a client, i.e. is connected. -/
theorem connect_spec :
    ∀ (s : Session) (transport : ConnectKwargs → Except TransportFailure Unit),
      (pyTruthy s.key_filename = true →
        (connect_kwargs s).auth = .keyFile (s.key_filename.getD "")) ∧
      (pyTruthy s.key_filename = false → pyTruthy s.password = true →
        (connect_kwargs s).auth = .pwd (s.password.getD "")) ∧
      (pyTruthy s.key_filename = false → pyTruthy s.password = false →
        (connect_kwargs s).auth = .defaultNegotiation) ∧
      (connect_kwargs s).timeout = 10 ∧
      (∀ f, transport (connect_kwargs s) = .error f →
        (connect s transport).2 = .error .connectFailed) ∧
      (transport (connect_kwargs s) = .ok () →
        (connect s transport).2 = .ok () ∧
        (connect s transport).1.client.isSome = true) := by
  intro s transport
  refine ⟨?_, ?_, ?_, rfl, ?_, ?_⟩
  · intro hk
    simp [connect_kwargs, chooseAuth, hk]
  · intro hk hp
    simp [connect_kwargs, chooseAuth, hk, hp]
  · intro hk hp
    simp [connect_kwargs, chooseAuth, hk, hp]
  · intro f hf
    simp [connect, hf]
  · intro hok
    constructor <;> simp [connect, hok]

/-- Witness for C8: with key material present the key wins, the timeout is
10, and a successful handshake leaves the session connected. -/
theorem connect_spec_witness :
    (connect_kwargs keyAndPasswordSession).auth = .keyFile "~/.ssh/id_rsa" ∧
    (connect_kwargs keyAndPasswordSession).timeout = 10 ∧
    (connect keyAndPasswordSession (fun _ => .ok ())).1.client.isSome = true := by
  have h := connect_spec keyAndPasswordSession (fun _ => .ok ())
  exact ⟨h.1 (by decide), h.2.2.2.1, (h.2.2.2.2.2 rfl).2⟩

/-- C9: no exception propagates out of the window-resize handler: every
exception raised inside the body is converted to a logged outcome, in
particular when the local terminal-size query fails, so a failed resize
leaves the session running. -/
theorem resize_handler_spec :
    ∀ env : ResizeEnv,
      (∀ msg, resize_handler_body env = .error msg →
        resize_handler env = .failedLogged) ∧
      (env.channelActive = true → env.termSize = .error () →
        resize_handler env = .failedLogged) := by
  intro env
  constructor
  · intro msg h
    simp [resize_handler, h]
  · intro hact hts
    simp [resize_handler, resize_handler_body, hact, hts]

/-- Witness for C9: an active channel whose terminal-size query raises ends
in a logged failure, not an exception. -/
theorem resize_handler_spec_witness :
    resize_handler { channelActive := true, termSize := .error (), resizeOk := true } =
      .failedLogged :=
  (resize_handler_spec _).2 rfl rfl

/-- C1: whenever a `run_interactive_shell` invocation entered raw mode, the
teardown sequence runs exactly once before the call returns, on every exit
path (loop return via remote or local EOF, or an exception raised after raw
mode was entered). -/
theorem run_interactive_shell_teardown_once :
    ∀ (s : Session) (env : ShellEnv),
      (run_interactive_shell s env).rawModeEntered = true →
      (run_interactive_shell s env).cleanups.length = 1 := by
  intro s env h
  unfold run_interactive_shell at h ⊢
  repeat' split at h
  all_goals simp_all

/-- Witness for C1: a fully successful interactive run enters raw mode and
tears down exactly once. -/
theorem run_interactive_shell_teardown_once_witness :
    (run_interactive_shell connectedSession happyShellEnv).cleanups.length = 1 :=
  run_interactive_shell_teardown_once _ _ rfl

/-- C4: each of the three teardown restorations is attempted even when the
others fail (the attempted-steps trace is always all three, in order), and a
teardown failure never changes the exit status returned by
`run_interactive_shell`.  That no exception escapes teardown is encoded by
`cleanup_resources` being total: every statement of the source function sits
inside its own catch-all handler. -/
theorem cleanup_resources_spec :
    (∀ env : CleanupEnv, (cleanup_resources true env).steps =
      [.restoreTermAttrs, .restoreSignalHandler, .closeChannel]) ∧
    (∀ (s : Session) (tty mt su tg si sr : Bool) (lo : Except String Int)
       (c1 c2 : CleanupEnv),
      (run_interactive_shell s ⟨tty, mt, su, tg, si, sr, lo, c1⟩).result =
      (run_interactive_shell s ⟨tty, mt, su, tg, si, sr, lo, c2⟩).result) := by
  constructor
  · intro env
    cases h1 : env.tcsetattrFails <;> cases h2 : env.signalRestoreFails <;>
      cases h3 : env.closeFails <;>
      simp [cleanup_resources, attempt, tcsetattr_restore, signal_restore,
        channel_close, h1, h2, h3]
  · intro s tty mt su tg si sr lo c1 c2
    unfold run_interactive_shell
    repeat' split
    all_goals simp_all

/-- C10: closing a connected session does not return it to the unconnected
state: the client field stays present, so the not-connected guard of the
batch streaming executor and of the PTY forwarder never fires after
`close`. -/
theorem close_keeps_connected_guard :
    ∀ s : Session, s.client.isSome = true →
      ((closeSession s).1.client.isSome = true) ∧
      (∀ (command : String) (workdir pre_cmd : Option String) (env : ExecEnv),
        exec_command_stream (closeSession s).1 command workdir pre_cmd env ≠
          .error .notConnected) ∧
      (∀ env : ShellEnv,
        (run_interactive_shell (closeSession s).1 env).result ≠
          .error .notConnected) := by
  intro s hs
  obtain ⟨c, hc⟩ := Option.isSome_iff_exists.mp hs
  have hclient : (closeSession s).1.client = some { closed := true } := by
    simp [closeSession, hc]
  refine ⟨by simp [hclient], ?_, ?_⟩
  · intro command workdir pre_cmd env
    simp [exec_command_stream, hclient]
    split <;> simp
  · intro env
    unfold run_interactive_shell
    rw [hclient]
    repeat' split
    all_goals simp_all

/-- Witness for C10: after closing a concrete connected session, the
executor guard still sees a client and does not raise the not-connected
error. -/
theorem close_keeps_connected_guard_witness :
    ((closeSession connectedSession).1.client.isSome = true) ∧
    exec_command_stream (closeSession connectedSession).1 "ls" none none
        { lines := [], exit_code := 0, execRaises := false } ≠ .error .notConnected := by
  have h := close_keeps_connected_guard connectedSession rfl
  exact ⟨h.1, h.2.1 "ls" none none _⟩

end MTR
